import Mathlib

/-!
Shallow embedding of the vechernicy_bot repository (src/main.py and
src/restart_handler.py) for verification of its specification.

Conventions of the embedding:
* Python dict/JSON documents are modelled by explicit structures; a field
  access `d["k"]` that can raise `KeyError` is modelled by an `Option`
  bind, so a renderer that can raise returns `Option String` with `none`
  standing for an uncaught exception.
* File input is modelled by an inductive file-content type:
  `missing` (FileNotFoundError on open), `malformed` (json.JSONDecodeError),
  or a parsed value.
* The global mutable `data` of main.py becomes an explicit `Dataset`
  parameter of every renderer; the `RestartHandler` object becomes a
  structure passed and returned explicitly.
-/

namespace Vech

/-! ## Supervisor state file (RestartHandler) -/

/-- A JSON value as far as the supervisor state file is concerned:
`null`, a number, or a string. -/
inductive JVal
  | null
  | num (n : Int)
  | str (s : String)
deriving DecidableEq, Repr

/-- The parsed supervisor state document (`bot_state.json`): each key may be
absent (`none`) or bound to a `JVal`.  Keys other than the three used by the
code are never read and are not modelled. -/
structure StateDoc where
  restart_count : Option JVal
  last_update : Option JVal
  shutdown_reason : Option JVal
deriving DecidableEq, Repr

/-- The default document returned by `load_state` when the file is absent or
malformed: `{"restart_count": 0, "last_update": None}`. -/
def defaultStateDoc : StateDoc :=
  { restart_count := some (JVal.num 0)
    last_update := some JVal.null
    shutdown_reason := none }

/-- The content of the supervisor state file: absent, unparseable JSON, or a
parsed document. -/
inductive StateFile
  | missing
  | malformed
  | valid (doc : StateDoc)
deriving DecidableEq, Repr

/-- `RestartHandler.load_state`: returns the parsed document, or the default
`{"restart_count": 0, "last_update": None}` on `FileNotFoundError` or
`json.JSONDecodeError` (both caught).  Total: it never raises. -/
def load_state : StateFile → StateDoc
  | StateFile.missing => defaultStateDoc
  | StateFile.malformed => defaultStateDoc
  | StateFile.valid doc => doc

/-- `state.get("restart_count", 0)`: the stored value, defaulting to `0` when
the key is absent. -/
def getRestartCount (d : StateDoc) : JVal :=
  d.restart_count.getD (JVal.num 0)

/-- `RestartHandler.save_bot_state`: writes
`{"last_update": now, "restart_count": load_state().get("restart_count", 0) + 1,
  "shutdown_reason": "graceful" if not self.shutting_down else "interrupted"}`.
If the stored `restart_count` is not numeric, the `+ 1` raises `TypeError`,
which the surrounding `try` swallows, leaving the file unchanged. -/
def save_bot_state (shuttingDown : Bool) (now : String) (f : StateFile) : StateFile :=
  match getRestartCount (load_state f) with
  | JVal.num n =>
      StateFile.valid
        { restart_count := some (JVal.num (n + 1))
          last_update := some (JVal.str now)
          shutdown_reason :=
            some (JVal.str (if shuttingDown then "interrupted" else "graceful")) }
  | _ => f

/-- The mutable state of a `RestartHandler` object together with the state
file it owns. -/
structure RestartHandler where
  shuttingDown : Bool
  file : StateFile
deriving DecidableEq, Repr

/-- `RestartHandler.graceful_shutdown`: a no-op if already shutting down;
otherwise sets `shutting_down = True` FIRST and then calls `save_bot_state`
(which therefore sees `shutting_down = True`).  The admin notification is
best-effort and does not affect the file. -/
def graceful_shutdown (now : String) (h : RestartHandler) : RestartHandler :=
  if h.shuttingDown then h
  else { shuttingDown := true, file := save_bot_state true now h.file }

/-- The fatal-error path of `main()`: on an uncaught exception from the run
loop it calls `save_bot_state` directly, with `shutting_down` still holding
whatever it held (normally `False`, since no termination signal arrived). -/
def fatalErrorSave (now : String) (h : RestartHandler) : RestartHandler :=
  { h with file := save_bot_state h.shuttingDown now h.file }

/-- The `shutdown_reason` recorded in a state file, if any. -/
def reasonOf : StateFile → Option JVal
  | StateFile.valid doc => doc.shutdown_reason
  | _ => none

/-- The recursive restart logic of `main()` under persistent fatal errors,
as a function of the numeric `restart_count` read from the state file at the
start of the current invocation.  Each cycle: the fatal error is caught,
`save_bot_state` rewrites the file with `rc + 1` (see
`save_increments_restart_count`), the process sleeps 30 s, and then the
value loaded at the START of this invocation is compared against 5:
`if restart_count < 5: await main()` — the recursive call reloads the file,
so it starts from `rc + 1`.  Returns the number of restarts performed and
whether the limit-reached branch (operator notification of required manual
intervention) was executed. -/
def main (rc : Nat) : Nat × Bool :=
  if h : rc < 5 then
    let r := main (rc + 1)
    (r.1 + 1, r.2)
  else
    (0, true)
termination_by 5 - rc
decreasing_by omega

/-! ## Reference dataset (`data.json`) and renderers -/

/-- One record of `data["emergency_phones"]`: the code reads the required
keys `service` and `phones` with `[...]`, raising `KeyError` when absent
(`none`). -/
structure EmergencyService where
  service : Option String
  phones : Option (List String)
deriving DecidableEq, Repr

/-- One record of `data["electricity"]`: `company`, `description`, `phone`
are required (read with `[...]`); `type` is optional (read with `.get`). -/
structure ElectricCompany where
  company : Option String
  description : Option String
  phone : Option String
  type : Option String
deriving DecidableEq, Repr

/-- `data["utilities"]["garbage"]`: `company`, `service`, `phone` required;
`hours` optional. -/
structure GarbageInfo where
  company : Option String
  service : Option String
  phone : Option String
  hours : Option String
deriving DecidableEq, Repr

/-- `data["utilities"]`; `garbage = none` covers both an absent key and an
empty (falsy) dict, which the code treats identically via
`.get("garbage", {})` followed by `if garbage:`. -/
structure Utilities where
  garbage : Option GarbageInfo
deriving DecidableEq, Repr

/-- `data["water"]`, read only with `.get`, so an absent dict behaves as one
with both keys absent. -/
structure WaterInfo where
  dispatcher : Option String
  note : Option String
deriving DecidableEq, Repr

/-- The parsed `data.json`.  For the keys the code guards with Python
truthiness (`if not data.get(k)`), an absent key and an empty value are
behaviourally identical, so `[]` / `none` models both. -/
structure Dataset where
  emergency : List (String × String)
  emergency_phones : List EmergencyService
  electricity : List ElectricCompany
  utilities : Option Utilities
  water : WaterInfo
  rules : List String
deriving DecidableEq, Repr

/-- The empty dataset `{}`. -/
def emptyDataset : Dataset :=
  { emergency := []
    emergency_phones := []
    electricity := []
    utilities := none
    water := { dispatcher := none, note := none }
    rules := [] }

/-- The content of `data.json` on disk. -/
inductive DataFile
  | missing
  | malformed
  | valid (d : Dataset)
deriving DecidableEq, Repr

/-- `load_data`: returns the parsed dataset, or `{}` on `FileNotFoundError`
or `json.JSONDecodeError` (both caught and logged). -/
def load_data : DataFile → Dataset
  | DataFile.missing => emptyDataset
  | DataFile.malformed => emptyDataset
  | DataFile.valid d => d

/-- Python truthiness of `.get(key)` for a string-valued key: `None` and the
empty string are both falsy. -/
def truthy : Option String → Bool
  | none => false
  | some s => decide (s ≠ "")

/-- Python `s.startswith(pre)` (also aiogram's `F.data.startswith`). -/
def pyStartsWith (s pre : String) : Bool := pre.data.isPrefixOf s.data

/-- Python `str.replace` on character lists: replaces every non-overlapping
occurrence of `old`, scanning left to right.  The fuel argument (instantiated
with the input length, which bounds the number of steps) only makes the
recursion structural. -/
def replaceListAux (old new : List Char) : Nat → List Char → List Char
  | _, [] => []
  | 0, l => l
  | fuel + 1, c :: rest =>
    if old ≠ [] ∧ old.isPrefixOf (c :: rest) then
      new ++ replaceListAux old new fuel ((c :: rest).drop old.length)
    else
      c :: replaceListAux old new fuel rest

/-- Python `s.replace(old, new)`. -/
def pyReplace (s old new : String) : String :=
  String.mk (replaceListAux old.data new.data s.data.length s.data)

/-- The fixed placeholder returned when a topic's data is missing. -/
def unavailableText : String := "⚠️ Информация временно недоступна"

/-- `data.get("utilities", {}).get("garbage", {})` as used by
`get_utilities_text` and `get_all_contacts_text`. -/
def datasetGarbage (d : Dataset) : Option GarbageInfo :=
  match d.utilities with
  | some u => u.garbage
  | none => none

/-- The loop `for num, desc in data.get("emergency", {}).items()`. -/
def shortNumsText : List (String × String) → String
  | [] => ""
  | (num, desc) :: rest => "<code>" ++ num ++ "</code> — " ++ desc ++ "\n" ++ shortNumsText rest

/-- The inner loop `for phone in service['phones']`. -/
def phonesLines : List String → String
  | [] => ""
  | p :: rest => "• " ++ p ++ "\n" ++ phonesLines rest

/-- The loop `for service in data.get("emergency_phones", [])` of
`get_emergency_text`; `none` when some record lacks a required key. -/
def servicesText : List EmergencyService → Option String
  | [] => some ""
  | s :: rest => do
      let name ← s.service
      let phones ← s.phones
      let tail ← servicesText rest
      pure ("\n<b>" ++ name ++ ":</b>\n" ++ phonesLines phones ++ tail)

/-- `get_emergency_text` (main.py lines 171-192). -/
def get_emergency_text (d : Dataset) : Option String :=
  if d.emergency_phones = [] then some unavailableText
  else do
    let svc ← servicesText d.emergency_phones
    pure ("<b>🆘 ЭКСТРЕННЫЕ СЛУЖБЫ</b>\n\n"
      ++ "<b>Короткие номера (работают с мобильных):</b>\n"
      ++ shortNumsText d.emergency
      ++ "\n<b>Подробные контакты:</b>\n"
      ++ svc
      ++ "\n<i>📢 Сохраните эти номера! В экстренной ситуации звоните сразу.</i>")

/-- One iteration of the `enumerate(data.get("electricity", []), 1)` loop. -/
def companyBlock (i : Nat) (c : ElectricCompany) : Option String := do
  let name ← c.company
  let desc ← c.description
  let ph ← c.phone
  pure ("<b>" ++ toString i ++ ". " ++ name ++ "</b>\n"
    ++ "   <i>" ++ desc ++ "</i>\n"
    ++ "   📞 " ++ ph ++ "\n"
    ++ (if truthy c.type then "   🏷️ Тип: " ++ c.type.getD "" ++ "\n" else "")
    ++ "\n")

/-- The full `enumerate` loop of `get_electricity_text`, starting at `i`. -/
def companiesText (i : Nat) : List ElectricCompany → Option String
  | [] => some ""
  | c :: rest => do
      let blk ← companyBlock i c
      let tail ← companiesText (i + 1) rest
      pure (blk ++ tail)

/-- `get_electricity_text` (main.py lines 194-213). -/
def get_electricity_text (d : Dataset) : Option String :=
  if d.electricity = [] then some unavailableText
  else do
    let cs ← companiesText 1 d.electricity
    pure ("<b>⚡ ЭЛЕКТРОСНАБЖЕНИЕ</b>\n\n"
      ++ "<i>Контакты энергетических компаний:</i>\n\n"
      ++ cs
      ++ "<i>Для отключений света сначала звоните в центр обслуживания клиентов (8-800-220-02-20)</i>")

/-- The `if garbage:` block of `get_utilities_text`. -/
def garbageBlock (g : GarbageInfo) : Option String := do
  let comp ← g.company
  let svc ← g.service
  let ph ← g.phone
  pure ("<b>Компания по вывозу ТКО:</b>\n"
    ++ "🏢 <b>" ++ comp ++ "</b>\n"
    ++ "📝 " ++ svc ++ "\n"
    ++ "📞 " ++ ph ++ "\n"
    ++ (if truthy g.hours then "⏰ " ++ g.hours.getD "" ++ "\n" else ""))

/-- The two water-info conditionals of `get_utilities_text`. -/
def waterBlock (w : WaterInfo) : String :=
  (if truthy w.dispatcher then
      "\n<b>💧 Водоснабжение:</b>\n" ++ "📞 Диспетчер: " ++ w.dispatcher.getD "" ++ "\n"
    else "")
  ++ (if truthy w.note then "\n<i>" ++ w.note.getD "" ++ "</i>" else "")

/-- The `if garbage:` step of `get_utilities_text`, over
`garbage = data.get("utilities", {}).get("garbage", {})`: the empty
contribution when the dict is falsy, the rendered block otherwise. -/
def utilitiesGarbagePart (d : Dataset) : Option String :=
  match datasetGarbage d with
  | some g => garbageBlock g
  | none => some ""

/-- The body of `get_utilities_text` past its guard: the garbage, water and
schedule blocks. -/
def utilitiesBody (d : Dataset) : Option String := do
  let gb ← utilitiesGarbagePart d
  pure ("<b>🗑️ ВЫВОЗ ТКО (ТВЕРДЫХ КОММУНАЛЬНЫХ ОТХОДОВ)</b>\n\n"
    ++ gb
    ++ waterBlock d.water
    ++ "\n\n<b>📅 График вывоза ТКО:</b>\n"
    ++ "🔗 https://lb.rosttech.online/for-clients/tech-zones/8/Levoberezhnaya\n\n"
    ++ "<i>💡 Перейдите по ссылке для просмотра актуального графика вывоза отходов</i>")

/-- `get_utilities_text` (main.py lines 215-247). -/
def get_utilities_text (d : Dataset) : Option String :=
  match d.utilities with
  | none => some unavailableText
  | some _ => utilitiesBody d

/-- The constant text of `get_admin_text`. -/
def adminText : String :=
  "<b>🏛️ ГЛАВА МУНИЦИПАЛЬНОГО ОБРАЗОВАНИЯ</b>\n\n"
  ++ "<b>Экель Виктор Юрьевич</b>\n"
  ++ "Глава Никольского сельсовета\n\n"
  ++ "<b>Телефон:</b> +7 (39133) 28-0-19\n\n"
  ++ "<b>Адрес:</b>\n"
  ++ "663024, Красноярский Край, Емельяновский район,\n"
  ++ "с. Никольское, ул. Советская 75а\n\n"
  ++ "<b>Email:</b> s-sovet@mail.ru\n\n"
  ++ "<b>Сайт:</b> https://nikolskij-r04.gosweb.gosuslugi.ru"

/-- `get_admin_text` (main.py lines 249-262): a constant; it never reads
`data`. -/
def get_admin_text (_ : Dataset) : Option String := some adminText

/-- The constant text of `get_bus_schedule_text`. -/
def busText : String :=
  "<b>🚌 РАСПИСАНИЕ АВТОБУСА</b>\n\n"
  ++ "<b>Емельяново - Вечерницы</b>\n\n"
  ++ "📅 Актуальное расписание можно посмотреть на сайте:\n"
  ++ "🔗 https://krasavtovokzal.ru/raspisanie/kya/emelyanovo/kya/vechernicy\n\n"
  ++ "<i>💡 Перейдите по ссылке для просмотра актуального расписания и тарифов</i>"

/-- `get_bus_schedule_text` (main.py lines 264-273): a constant. -/
def get_bus_schedule_text (_ : Dataset) : Option String := some busText

/-- The constant text of `get_clinic_text`. -/
def clinicText : String :=
  "<b>🏥 НИКОЛЬСКАЯ ВРАЧЕБНАЯ АМБУЛАТОРИЯ</b>\n\n"
  ++ "<b>Контакты отделения:</b>\n\n"
  ++ "<b>Адрес отделения:</b>\n"
  ++ "Емельяновский район, с. Никольское, ул. Советская, 75 «А»\n\n"
  ++ "<b>Телефон отделения:</b>\n"
  ++ "8 (391) 205‒25‒03 доб. 210\n\n"
  ++ "<b>Сайт:</b>\n"
  ++ "🔗 https://emelrb.gosuslugi.ru/informatsiya-dlya-patsientov/otdeleniya/nikolskaya-vrachebnaya-ambulatoriya.html\n\n"
  ++ "<i>💡 Перейдите по ссылке для получения дополнительной информации о работе амбулатории</i>"

/-- `get_clinic_text` (main.py lines 275-288): a constant. -/
def get_clinic_text (_ : Dataset) : Option String := some clinicText

/-- Python's `sep.join(xs)`. -/
def pyJoin (sep : String) : List String → String
  | [] => ""
  | [x] => x
  | x :: rest => x ++ sep ++ pyJoin sep rest

/-- `get_rules_text` (main.py lines 290-296): `"\n".join(data["rules"])`
behind an `if not data.get("rules")` guard. -/
def get_rules_text (d : Dataset) : Option String :=
  if d.rules = [] then some unavailableText
  else some (pyJoin "\n" d.rules)

/-- The emergency-services loop of `get_all_contacts_text` (no colon after
the service name, unlike `get_emergency_text`). -/
def contactServiceLines : List EmergencyService → Option String
  | [] => some ""
  | s :: rest => do
      let name ← s.service
      let phones ← s.phones
      let tail ← contactServiceLines rest
      pure ("\n<b>" ++ name ++ "</b>\n" ++ phonesLines phones ++ tail)

/-- The electricity loop of `get_all_contacts_text`. -/
def contactCompanyLines : List ElectricCompany → Option String
  | [] => some ""
  | c :: rest => do
      let name ← c.company
      let ph ← c.phone
      let tail ← contactCompanyLines rest
      pure ("\n• <b>" ++ name ++ "</b>\n" ++ "  " ++ ph ++ "\n" ++ tail)

/-- The `if garbage:` block of `get_all_contacts_text`. -/
def contactGarbage (g : GarbageInfo) : Option String := do
  let comp ← g.company
  let ph ← g.phone
  let svc ← g.service
  pure ("\n• <b>" ++ comp ++ "</b>\n" ++ "  " ++ ph ++ " - " ++ svc ++ "\n")

/-- The `if garbage:` step of `get_all_contacts_text`, over
`data.get("utilities", {}).get("garbage", {})`: the empty contribution when
the dict is falsy, the rendered block otherwise. -/
def contactsGarbagePart (d : Dataset) : Option String :=
  match datasetGarbage d with
  | some g => contactGarbage g
  | none => some ""

/-- `get_all_contacts_text` (main.py lines 298-343). -/
def get_all_contacts_text (d : Dataset) : Option String := do
  let sv ← contactServiceLines d.emergency_phones
  let el ← contactCompanyLines d.electricity
  let gb ← contactsGarbagePart d
  pure ("<b>📞 ПОЛНЫЙ СПИСОК КОНТАКТОВ</b>\n\n"
    ++ "<b>🆘 Экстренные службы:</b>\n"
    ++ sv
    ++ "\n<b>⚡ Электроснабжение:</b>\n"
    ++ el
    ++ "\n<b>🗑️ Вывоз ТКО:</b>\n"
    ++ gb
    ++ "\n• <b>График вывоза ТКО:</b>\n"
    ++ "  https://lb.rosttech.online/for-clients/tech-zones/8/Levoberezhnaya\n"
    ++ "\n<b>🏛️ Глава муниципального образования:</b>\n"
    ++ "\n• <b>Экель Виктор Юрьевич</b>\n"
    ++ "  +7 (39133) 28-0-19\n"
    ++ "\n<b>🏥 Никольская врачебная амбулатория:</b>\n"
    ++ "\n• <b>Адрес:</b> с. Никольское, ул. Советская, 75 «А»\n"
    ++ "• <b>Телефон:</b> 8 (391) 205‒25‒03 доб. 210\n"
    ++ "• <b>Сайт:</b> https://emelrb.gosuslugi.ru/informatsiya-dlya-patsientov/otdeleniya/nikolskaya-vrachebnaya-ambulatoriya.html\n"
    ++ "\n<b>🚌 Расписание автобуса:</b>\n"
    ++ "\n• <b>Емельяново - Вечерницы</b>\n"
    ++ "  https://krasavtovokzal.ru/raspisanie/kya/emelyanovo/kya/vechernicy\n"
    ++ "\n<i>💡 Для быстрого доступа используйте соответствующие разделы меню</i>")

/-- The constant text of `get_help_text`. -/
def helpText : String :=
  "<b>ℹ️ Помощь по боту:</b>\n\n"
  ++ "• <b>🆘 Экстренно</b> — все экстренные службы с номерами\n"
  ++ "• <b>⚡ Электросети</b> — электроснабжение (3 организации)\n"
  ++ "• <b>🗑️ Вывоз ТКО</b> — твердые коммунальные отходы\n"
  ++ "• <b>🏛️ Администрация</b> — глава муниципального образования\n"
  ++ "• <b>🏥 Амбулатория</b> — Никольская врачебная амбулатория\n"
  ++ "• <b>🚌 Расписание автобуса</b> — маршрут Емельяново - Вечерницы\n"
  ++ "• <b>📌 Правила</b> — правила сообщества\n"
  ++ "• <b>📞 Все контакты</b> — полный список телефонов\n\n"
  ++ "<i>Для срочных вызовов используйте короткие номера:</i>\n"
  ++ "<code>101</code> — пожарные\n"
  ++ "<code>102</code> — полиция\n"
  ++ "<code>103</code> — скорая\n"
  ++ "<code>112</code> — ЕДДС (любая экстренная ситуация)"

/-- `get_help_text` (main.py lines 345-363): a constant. -/
def get_help_text (_ : Dataset) : Option String := some helpText

/-! ## Delivery router -/

/-- Where a `send_message` is addressed: the chat the interaction came from
(`message.answer` / `edit_text` target) or the acting user's private chat
(`chat_id=callback.from_user.id`). -/
inductive Target
  | sameChat
  | userPrivate
deriving DecidableEq, Repr

/-- One call to the messaging collaborator.  `sendMessage` and `editMessage`
deliver content into a channel; `answerCallback` is the callback
acknowledgement toast/alert, shown only to the user who tapped (keyboard
markup is presentation and is not modelled). -/
inductive Effect
  | sendMessage (target : Target) (text : String)
  | editMessage (text : String)
  | answerCallback (text : Option String) (showAlert : Bool)
deriving DecidableEq, Repr

/-- Whether an effect delivers a message into a channel (send or edit), as
opposed to a requester-only callback acknowledgement. -/
def Effect.isDelivery : Effect → Bool
  | Effect.sendMessage _ _ => true
  | Effect.editMessage _ => true
  | Effect.answerCallback _ _ => false

/-- Whether an effect is a callback acknowledgement. -/
def Effect.isAck : Effect → Bool
  | Effect.answerCallback _ _ => true
  | _ => false

/-- Number of channel deliveries among a handler's effects. -/
def deliveryCount (l : List Effect) : Nat := (l.filter Effect.isDelivery).length

/-- Number of requester-only callback acknowledgements. -/
def ackCount (l : List Effect) : Nat := (l.filter Effect.isAck).length

/-- Number of messages sent to the acting user's private chat. -/
def privateDeliveryCount (l : List Effect) : Nat :=
  (l.filter fun e =>
    match e with
    | Effect.sendMessage Target.userPrivate _ => true
    | _ => false).length

/-- `message.chat.type`: `"private"` or a group kind. -/
inductive ChatType
  | directChat
  | groupChat
deriving DecidableEq, Repr

/-- The `command_functions` dict of `handle_menu_buttons` (main.py lines
486-496). -/
def command_functions (cmd : String) : Option (Dataset → Option String) :=
  if cmd = "emergency" then some get_emergency_text
  else if cmd = "electricity" then some get_electricity_text
  else if cmd = "garbage" then some get_utilities_text
  else if cmd = "contacts" then some get_all_contacts_text
  else if cmd = "rules" then some get_rules_text
  else if cmd = "admin" then some get_admin_text
  else if cmd = "bus" then some get_bus_schedule_text
  else if cmd = "clinic" then some get_clinic_text
  else if cmd = "help" then some get_help_text
  else none

/-- The group-visible confirmation toast. -/
def sentAck : String := "✅ Информация отправлена в ваши личные сообщения!"

/-- The instructional alert shown when the private send fails. -/
def instructionalAck : String :=
  "⚠️ Чтобы получить информацию, сначала напишите мне в личку!\n\n"
  ++ "1. Перейдите в @vechernitsy_bot\n"
  ++ "2. Нажмите START\n"
  ++ "3. Вернитесь и нажмите кнопку снова"

/-- The not-found toast for an unknown `menu_*` command. -/
def notFoundAck : String := "❌ Команда не найдена"

/-- `handle_menu_buttons` (main.py lines 480-537), given the already
stripped command, the chat type, and whether the user's private channel
accepts a `send_message` (`privAccepts = false` models the Telegram refusal
that raises inside the `try`).  Returns `none` when the handler itself
raises (renderer `KeyError` outside any `try`, in the direct-chat branch);
in the group branch the renderer runs inside the `try`, so its exception is
caught by the generic `except` and produces the instructional alert. -/
def handle_menu_buttons (d : Dataset) (cmd : String) (chat : ChatType)
    (privAccepts : Bool) : Option (List Effect) :=
  match command_functions cmd with
  | some f =>
    match chat with
    | ChatType.directChat =>
      match f d with
      | some txt => some [Effect.editMessage txt, Effect.answerCallback none false]
      | none => none
    | ChatType.groupChat =>
      match f d with
      | some txt =>
        if privAccepts then
          some [Effect.sendMessage Target.userPrivate txt,
                Effect.answerCallback (some sentAck) false]
        else
          some [Effect.answerCallback (some instructionalAck) true]
      | none => some [Effect.answerCallback (some instructionalAck) true]
  | none => some [Effect.answerCallback (some notFoundAck) false]

/-- The menu text of `show_menu_handler` for each chat type. -/
def menuText (chat : ChatType) : String :=
  match chat with
  | ChatType.directChat => "📋 <b>Главное меню помощника</b>\n\nВыберите нужный раздел:"
  | ChatType.groupChat =>
      "📋 <b>Главное меню помощника</b>\n\nВыберите нужный раздел:\n\n"
      ++ "<i>📱 Информация будет отправлена в ваши ЛИЧНЫЕ СООБЩЕНИЯ</i>"

/-- The full callback dispatch of the Dispatcher, in registration order:
`menu_show` (show_menu_handler), then `menu_close` (close_menu_handler),
then `F.data.startswith("menu_")` (handle_menu_buttons, which strips every
occurrence of `"menu_"` via `callback.data.replace("menu_", "")`).  Callback
data matching no registered handler produces no effects. -/
def routeCallback (d : Dataset) (cbData : String) (chat : ChatType)
    (privAccepts : Bool) : Option (List Effect) :=
  if cbData = "menu_show" then
    some [Effect.editMessage (menuText chat), Effect.answerCallback none false]
  else if cbData = "menu_close" then
    some [Effect.editMessage "Меню свернуто. Используйте /menu чтобы открыть снова.",
          Effect.answerCallback (some "Меню свернуто") false]
  else if pyStartsWith cbData "menu_" then
    handle_menu_buttons d (pyReplace cbData "menu_" "") chat privAccepts
  else
    some []

/-! ## Message handlers -/

/-- The command named by a text, as aiogram's Command filter extracts it:
the first token after a leading `/`, up to a space or `@`. -/
def commandOf (t : String) : Option String :=
  if pyStartsWith t "/" then
    some (String.mk ((t.data.drop 1).takeWhile fun c => c != ' ' && c != '@'))
  else none

/-- The private-chat prompt of `unknown_message`. -/
def menuPrompt : String :=
  "Используйте команду /menu для открытия меню или /help для справки."

/-- The group prompt of `unknown_message` on a trigger word. -/
def groupPrompt : String :=
  "👋 Напишите /menu чтобы открыть меню помощника!\n"
  ++ "<i>Вся информация будет отправлена в ваши личные сообщения</i>"

/-- Python `str.lower()` restricted to what the trigger check needs:
ASCII letters and the Cyrillic uppercase range (А-Я and Ё). -/
def pyLowerChar (c : Char) : Char :=
  if 'А' ≤ c && c ≤ 'Я' then Char.ofNat (c.toNat + 32)
  else if c = 'Ё' then 'ё'
  else c.toLower

/-- `text.lower()` character by character. -/
def pyLower (s : String) : String := String.mk (s.data.map pyLowerChar)

/-- `needle in haystack` on character lists. -/
def listContainsSub (needle : List Char) : List Char → Bool
  | [] => decide (needle = [])
  | c :: rest => needle.isPrefixOf (c :: rest) || listContainsSub needle rest

/-- The group trigger test: `"бот" in text.lower() or "вечерницы" in
text.lower()`. -/
def hasTrigger (t : String) : Bool :=
  listContainsSub "бот".data (pyLower t).data
  || listContainsSub "вечерницы".data (pyLower t).data

/-- `unknown_message` (main.py lines 540-558).  `txt = none` models a
non-text message (`message.text is None`): in a direct chat the code calls
`message.text.startswith` on `None` and raises `AttributeError` (`none`
result); in a group the `message.text and ...` guard short-circuits. -/
def unknown_message (chat : ChatType) (txt : Option String) : Option (List Effect) :=
  match chat with
  | ChatType.directChat =>
    match txt with
    | none => none
    | some t =>
      if pyStartsWith t "/" then some []
      else some [Effect.sendMessage Target.sameChat menuPrompt]
  | ChatType.groupChat =>
    match txt with
    | none => some []
    | some t =>
      if hasTrigger t then some [Effect.sendMessage Target.sameChat groupPrompt]
      else some []

/-- The `/start` welcome text per chat type. -/
def welcomeText (chat : ChatType) : String :=
  match chat with
  | ChatType.directChat =>
      "👋 <b>Добро пожаловать в помощник деревни Вечерницы!</b>\n\n"
      ++ "Я здесь, чтобы помочь с важными контактами и информацией.\n\n"
      ++ "💡 <b>Как пользоваться:</b>\n"
      ++ "1. Нажмите кнопку \x27📋 Открыть меню\x27 ниже\n"
      ++ "2. Выберите нужный раздел\n"
      ++ "3. Информация придет прямо сюда\n\n"
      ++ "<i>В группе информация будет приходить в ЛИЧНЫЕ СООБЩЕНИЯ</i>"
  | ChatType.groupChat =>
      "👋 <b>Помощник деревни Вечерницы</b>\n\n"
      ++ "Я помогу вам получить важные контакты и информацию.\n\n"
      ++ "💡 <b>Как пользоваться:</b>\n"
      ++ "1. Нажмите кнопку \x27📋 Открыть меню\x27 ниже\n"
      ++ "2. Выберите нужный раздел\n"
      ++ "3. <b>Информация придет в ваши ЛИЧНЫЕ СООБЩЕНИЯ!</b>\n\n"
      ++ "<i>Если не получается, сначала напишите боту в личку: @vechernitsy_bot</i>"

/-- The `/menu` command text per chat type (identical to the
`show_menu_handler` texts). -/
def menuCommandText (chat : ChatType) : String := menuText chat

/-- The message dispatch of the Dispatcher, in registration order:
`CommandStart()` (start_command), `Command("menu")` (menu_command),
`Command("help")` (help_command_handler), then the bare `@dp.message()`
catch-all (unknown_message).  Non-text messages skip the command filters. -/
def routeMessage (d : Dataset) (chat : ChatType) (txt : Option String) :
    Option (List Effect) :=
  match txt with
  | some t =>
    if commandOf t = some "start" then
      some [Effect.sendMessage Target.sameChat (welcomeText chat)]
    else if commandOf t = some "menu" then
      some [Effect.sendMessage Target.sameChat (menuCommandText chat)]
    else if commandOf t = some "help" then
      some [Effect.sendMessage Target.sameChat ((get_help_text d).getD "")]
    else
      unknown_message chat (some t)
  | none => unknown_message chat none

/-! ## Well-formed datasets and render lemmas -/

/-- A dataset whose present records carry the keys the renderers read with
`[...]` (so no renderer raises `KeyError`) and whose `rules` list is not the
single empty line (the one value whose join is the empty string). -/
def Dataset.WF (d : Dataset) : Bool :=
  d.emergency_phones.all (fun s => s.service.isSome && s.phones.isSome)
  && d.electricity.all (fun c => c.company.isSome && c.description.isSome && c.phone.isSome)
  && (match datasetGarbage d with
      | some g => g.company.isSome && g.service.isSome && g.phone.isSome
      | none => true)
  && decide (d.rules ≠ [""])

theorem main_ge_five (rc : Nat) (h : 5 ≤ rc) : main rc = (0, true) := by
  unfold main
  simp [Nat.not_lt.mpr h]

theorem main_restarts (rc : Nat) : (main rc).1 = 5 - min rc 5 := by
  unfold main
  split
  · dsimp only
    rw [main_restarts (rc + 1)]
    omega
  · dsimp only
    omega
termination_by 5 - rc
decreasing_by omega

theorem main_notifies (rc : Nat) : (main rc).2 = true := by
  unfold main
  split
  · dsimp only
    exact main_notifies (rc + 1)
  · rfl
termination_by 5 - rc
decreasing_by omega

theorem append_ne_empty_left (a b : String) (h : a ≠ "") : a ++ b ≠ "" := by
  intro hc
  apply h
  rw [String.ext_iff] at hc ⊢
  rw [String.data_append] at hc
  simpa using (List.append_eq_nil.mp hc).1

theorem servicesText_isSome (l : List EmergencyService)
    (h : ∀ s ∈ l, s.service.isSome = true ∧ s.phones.isSome = true) :
    (servicesText l).isSome = true := by
  induction l with
  | nil => rfl
  | cons s rest ih =>
    obtain ⟨h1, h2⟩ := h s (by simp)
    obtain ⟨name, hn⟩ := Option.isSome_iff_exists.mp h1
    obtain ⟨ph, hp⟩ := Option.isSome_iff_exists.mp h2
    obtain ⟨tail, htl⟩ := Option.isSome_iff_exists.mp
      (ih fun x hx => h x (List.mem_cons_of_mem _ hx))
    simp [servicesText, hn, hp, htl]

theorem companiesText_isSome (i : Nat) (l : List ElectricCompany)
    (h : ∀ c ∈ l, c.company.isSome = true ∧ c.description.isSome = true
      ∧ c.phone.isSome = true) :
    (companiesText i l).isSome = true := by
  induction l generalizing i with
  | nil => rfl
  | cons c rest ih =>
    obtain ⟨h1, h2, h3⟩ := h c (by simp)
    obtain ⟨name, hn⟩ := Option.isSome_iff_exists.mp h1
    obtain ⟨desc, hd⟩ := Option.isSome_iff_exists.mp h2
    obtain ⟨ph, hp⟩ := Option.isSome_iff_exists.mp h3
    obtain ⟨tail, htl⟩ := Option.isSome_iff_exists.mp
      (ih (i + 1) fun x hx => h x (List.mem_cons_of_mem _ hx))
    simp [companiesText, companyBlock, hn, hd, hp, htl]

theorem contactServiceLines_isSome (l : List EmergencyService)
    (h : ∀ s ∈ l, s.service.isSome = true ∧ s.phones.isSome = true) :
    (contactServiceLines l).isSome = true := by
  induction l with
  | nil => rfl
  | cons s rest ih =>
    obtain ⟨h1, h2⟩ := h s (by simp)
    obtain ⟨name, hn⟩ := Option.isSome_iff_exists.mp h1
    obtain ⟨ph, hp⟩ := Option.isSome_iff_exists.mp h2
    obtain ⟨tail, htl⟩ := Option.isSome_iff_exists.mp
      (ih fun x hx => h x (List.mem_cons_of_mem _ hx))
    simp [contactServiceLines, hn, hp, htl]

theorem contactCompanyLines_isSome (l : List ElectricCompany)
    (h : ∀ c ∈ l, c.company.isSome = true ∧ c.description.isSome = true
      ∧ c.phone.isSome = true) :
    (contactCompanyLines l).isSome = true := by
  induction l with
  | nil => rfl
  | cons c rest ih =>
    obtain ⟨h1, _, h3⟩ := h c (by simp)
    obtain ⟨name, hn⟩ := Option.isSome_iff_exists.mp h1
    obtain ⟨ph, hp⟩ := Option.isSome_iff_exists.mp h3
    obtain ⟨tail, htl⟩ := Option.isSome_iff_exists.mp
      (ih fun x hx => h x (List.mem_cons_of_mem _ hx))
    simp [contactCompanyLines, hn, hp, htl]

/-- Unpack `Dataset.WF` into its four component properties. -/
theorem Dataset.WF_spec (d : Dataset) (h : d.WF = true) :
    (∀ s ∈ d.emergency_phones, s.service.isSome = true ∧ s.phones.isSome = true)
    ∧ (∀ c ∈ d.electricity, c.company.isSome = true ∧ c.description.isSome = true
        ∧ c.phone.isSome = true)
    ∧ (∀ g, datasetGarbage d = some g → g.company.isSome = true
        ∧ g.service.isSome = true ∧ g.phone.isSome = true)
    ∧ d.rules ≠ [""] := by
  unfold Dataset.WF at h
  simp only [Bool.and_eq_true, List.all_eq_true, decide_eq_true_eq] at h
  obtain ⟨⟨⟨h1, h2⟩, h3⟩, h4⟩ := h
  refine ⟨?_, ?_, ?_, h4⟩
  · intro s hs
    simpa [Bool.and_eq_true] using h1 s hs
  · intro c hc
    simpa [Bool.and_eq_true, and_assoc] using h2 c hc
  · intro g hg
    rw [hg] at h3
    simpa [Bool.and_eq_true, and_assoc] using h3

theorem get_emergency_text_wf (d : Dataset) (h : d.WF = true) :
    ∃ t, get_emergency_text d = some t ∧ t ≠ "" := by
  obtain ⟨h1, -, -, -⟩ := Dataset.WF_spec d h
  unfold get_emergency_text
  by_cases hc : d.emergency_phones = []
  · exact ⟨unavailableText, by rw [if_pos hc], by decide⟩
  · rw [if_neg hc]
    obtain ⟨svc, hsvc⟩ := Option.isSome_iff_exists.mp (servicesText_isSome _ h1)
    refine ⟨_, by rw [hsvc]; rfl, ?_⟩
    repeat apply append_ne_empty_left
    decide

theorem get_electricity_text_wf (d : Dataset) (h : d.WF = true) :
    ∃ t, get_electricity_text d = some t ∧ t ≠ "" := by
  obtain ⟨-, h2, -, -⟩ := Dataset.WF_spec d h
  unfold get_electricity_text
  by_cases hc : d.electricity = []
  · exact ⟨unavailableText, by rw [if_pos hc], by decide⟩
  · rw [if_neg hc]
    obtain ⟨cs, hcs⟩ := Option.isSome_iff_exists.mp (companiesText_isSome 1 _ h2)
    refine ⟨_, by rw [hcs]; rfl, ?_⟩
    repeat apply append_ne_empty_left
    decide

theorem garbageBlock_isSome (g : GarbageInfo)
    (h : g.company.isSome = true ∧ g.service.isSome = true ∧ g.phone.isSome = true) :
    (garbageBlock g).isSome = true := by
  obtain ⟨c1, c2, c3⟩ := h
  obtain ⟨comp, hcomp⟩ := Option.isSome_iff_exists.mp c1
  obtain ⟨svc, hsvc⟩ := Option.isSome_iff_exists.mp c2
  obtain ⟨ph, hph⟩ := Option.isSome_iff_exists.mp c3
  simp [garbageBlock, hcomp, hsvc, hph]

theorem utilitiesGarbagePart_isSome (d : Dataset)
    (h3 : ∀ g, datasetGarbage d = some g → g.company.isSome = true
      ∧ g.service.isSome = true ∧ g.phone.isSome = true) :
    (utilitiesGarbagePart d).isSome = true := by
  unfold utilitiesGarbagePart
  cases hg : datasetGarbage d with
  | none => rfl
  | some g =>
    exact garbageBlock_isSome g (h3 g hg)

theorem utilitiesBody_wf (d : Dataset)
    (h3 : ∀ g, datasetGarbage d = some g → g.company.isSome = true
      ∧ g.service.isSome = true ∧ g.phone.isSome = true) :
    ∃ t, utilitiesBody d = some t ∧ t ≠ "" := by
  unfold utilitiesBody
  obtain ⟨gb, hgb⟩ := Option.isSome_iff_exists.mp (utilitiesGarbagePart_isSome d h3)
  refine ⟨_, by rw [hgb]; rfl, ?_⟩
  repeat apply append_ne_empty_left
  decide

theorem get_utilities_text_wf (d : Dataset) (h : d.WF = true) :
    ∃ t, get_utilities_text d = some t ∧ t ≠ "" := by
  obtain ⟨-, -, h3, -⟩ := Dataset.WF_spec d h
  unfold get_utilities_text
  cases hu : d.utilities with
  | none => exact ⟨unavailableText, rfl, by decide⟩
  | some u =>
    obtain ⟨t, ht, hne⟩ := utilitiesBody_wf d h3
    exact ⟨t, ht, hne⟩

theorem get_rules_text_wf (d : Dataset) (h : d.WF = true) :
    ∃ t, get_rules_text d = some t ∧ t ≠ "" := by
  obtain ⟨-, -, -, h4⟩ := Dataset.WF_spec d h
  unfold get_rules_text
  by_cases hc : d.rules = []
  · exact ⟨unavailableText, by rw [if_pos hc], by decide⟩
  · rw [if_neg hc]
    refine ⟨_, rfl, ?_⟩
    match hm : d.rules with
    | [] => exact absurd hm hc
    | [x] =>
      rw [hm] at h4
      simp only [pyJoin]
      intro hx
      exact h4 (by rw [hx])
    | x :: y :: rest =>
      show pyJoin "\n" (x :: y :: rest) ≠ ""
      simp only [pyJoin]
      intro hc2
      rw [String.ext_iff, String.data_append, String.data_append] at hc2
      have := List.append_eq_nil.mp hc2
      have h5 := (List.append_eq_nil.mp this.1).2
      simp [String.ext_iff] at h5

theorem contactsGarbagePart_isSome (d : Dataset)
    (h3 : ∀ g, datasetGarbage d = some g → g.company.isSome = true
      ∧ g.service.isSome = true ∧ g.phone.isSome = true) :
    (contactsGarbagePart d).isSome = true := by
  unfold contactsGarbagePart
  cases hg : datasetGarbage d with
  | none => rfl
  | some g =>
    obtain ⟨c1, c2, c3⟩ := h3 g hg
    obtain ⟨comp, hcomp⟩ := Option.isSome_iff_exists.mp c1
    obtain ⟨svc, hsvc⟩ := Option.isSome_iff_exists.mp c2
    obtain ⟨ph, hph⟩ := Option.isSome_iff_exists.mp c3
    simp [contactGarbage, hcomp, hsvc, hph]

theorem get_all_contacts_text_wf (d : Dataset) (h : d.WF = true) :
    ∃ t, get_all_contacts_text d = some t ∧ t ≠ "" := by
  obtain ⟨h1, h2, h3, -⟩ := Dataset.WF_spec d h
  unfold get_all_contacts_text
  obtain ⟨sv, hsv⟩ := Option.isSome_iff_exists.mp (contactServiceLines_isSome _ h1)
  obtain ⟨el, hel⟩ := Option.isSome_iff_exists.mp (contactCompanyLines_isSome _ h2)
  obtain ⟨gb, hgb⟩ := Option.isSome_iff_exists.mp (contactsGarbagePart_isSome d h3)
  refine ⟨_, by rw [hsv, hel, hgb]; rfl, ?_⟩
  repeat apply append_ne_empty_left
  decide

/-- Every function in the `command_functions` dict, on a well-formed
dataset, returns non-empty text and does not raise. -/
theorem render_wf (cmd : String) (f : Dataset → Option String) (d : Dataset)
    (hf : command_functions cmd = some f) (hd : d.WF = true) :
    ∃ t, f d = some t ∧ t ≠ "" := by
  unfold command_functions at hf
  split_ifs at hf <;> cases hf
  · exact get_emergency_text_wf d hd
  · exact get_electricity_text_wf d hd
  · exact get_utilities_text_wf d hd
  · exact get_all_contacts_text_wf d hd
  · exact get_rules_text_wf d hd
  · exact ⟨adminText, rfl, by decide⟩
  · exact ⟨busText, rfl, by decide⟩
  · exact ⟨clinicText, rfl, by decide⟩
  · exact ⟨helpText, rfl, by decide⟩

/-! ## Claim theorems -/

/-- C1: the claim says graceful shutdown persists `shutdown_reason =
"graceful"` and the fatal-error path persists `"interrupted"`.  The code
does the exact opposite: `graceful_shutdown` sets `shutting_down = True`
before saving, and `save_bot_state` writes `"graceful" if not
self.shutting_down else "interrupted"`, so the signal-triggered graceful
path persists `"interrupted"`, while the fatal-error path (where
`shutting_down` is still `False`) persists `"graceful"`.  This theorem
evaluates both paths at the failing input (fresh handler, absent state
file). -/
theorem C1_shutdown_reason_inverted :
    reasonOf (graceful_shutdown "12:00:00"
        { shuttingDown := false, file := StateFile.missing }).file
      = some (JVal.str "interrupted")
    ∧ reasonOf (fatalErrorSave "12:00:00"
        { shuttingDown := false, file := StateFile.missing }).file
      = some (JVal.str "graceful") :=
  ⟨rfl, rfl⟩

/-- C2: once the restart counter read at the start of a run-loop invocation
has reached the ceiling 5, a fatal error performs no further restart and
executes the limit-reached branch (operator notification of required manual
intervention); starting from a fresh state file (counter 0) under persistent
fatal errors, exactly 5 restarts happen — no 6th. -/
theorem C2_restart_ceiling (rc : Nat) (h : 5 ≤ rc) :
    main rc = (0, true) ∧ main 0 = (5, true) := by
  refine ⟨main_ge_five rc h, ?_⟩
  have h1 : (main 0).1 = 5 := by
    rw [main_restarts 0]
    rfl
  have h2 := main_notifies 0
  cases hm : main 0 with
  | mk a b =>
    rw [hm] at h1 h2
    simp at h1 h2
    rw [h1, h2]

/-- Witness for C2 at the concrete counter value 5. -/
theorem C2_restart_ceiling_witness :
    5 ≤ 5 ∧ (main 5 = (0, true) ∧ main 0 = (5, true)) :=
  ⟨by decide, C2_restart_ceiling 5 (by decide)⟩

/-- C8: `restart_count` lifecycle of the persisted state: the value read
when the state file is absent is 0; every successful persisted write stores
exactly 1 more than the value currently stored (the stored value of a
missing or malformed file reading as the default 0); and a save never
resets the counter — when the stored value is not numeric the write is
swallowed and the file is unchanged. -/
theorem C8_restart_count_lifecycle :
    getRestartCount (load_state StateFile.missing) = JVal.num 0
    ∧ (∀ sd : Bool, ∀ now : String, ∀ f : StateFile, ∀ n : Int,
        getRestartCount (load_state f) = JVal.num n →
        getRestartCount (load_state (save_bot_state sd now f)) = JVal.num (n + 1))
    ∧ (∀ sd : Bool, ∀ now : String, ∀ f : StateFile,
        (∀ n : Int, getRestartCount (load_state f) ≠ JVal.num n) →
        save_bot_state sd now f = f) := by
  refine ⟨rfl, ?_, ?_⟩
  · intro sd now f n h
    unfold save_bot_state
    rw [h]
    rfl
  · intro sd now f h
    unfold save_bot_state
    cases hg : getRestartCount (load_state f) with
    | num n => exact absurd hg (h n)
    | null => rfl
    | str s => rfl

/-- Witness for C8: saving over an absent state file writes counter 0+1. -/
theorem C8_restart_count_lifecycle_witness :
    getRestartCount (load_state StateFile.missing) = JVal.num 0
    ∧ getRestartCount (load_state (save_bot_state false "T" StateFile.missing))
        = JVal.num (0 + 1) :=
  ⟨by decide, C8_restart_count_lifecycle.2.1 false "T" StateFile.missing 0 (by decide)⟩

/-- C9: `load_state` is total (never raises): it returns the parsed
document when the file parses, and the default
`{"restart_count": 0, "last_update": None}` when the file is missing or
holds malformed JSON. -/
theorem C9_load_state_total :
    (∀ doc : StateDoc, load_state (StateFile.valid doc) = doc)
    ∧ load_state StateFile.missing = defaultStateDoc
    ∧ load_state StateFile.malformed = defaultStateDoc :=
  ⟨fun _ => rfl, rfl, rfl⟩

/-- C3 counterexample: as stated ("for every dataset, complete or partial or
empty, rendering returns non-empty text and never raises") the claim is
false at two concrete datasets: with `{"rules": [""]}` the rules topic
renders the EMPTY string, and with
`{"emergency_phones": [{"service": "Fire"}]}` (record missing its required
`phones` key) the emergency renderer raises `KeyError` (modelled `none`). -/
theorem C3_counterexample :
    command_functions "rules" = some get_rules_text
    ∧ get_rules_text { emptyDataset with rules := [""] } = some ""
    ∧ command_functions "emergency" = some get_emergency_text
    ∧ get_emergency_text
        { emptyDataset with
          emergency_phones := [{ service := some "Fire", phones := none }] } = none :=
  ⟨rfl, rfl, rfl, rfl⟩

/-- C3 amended: for every topic in the known set and every dataset whose
present records carry their required keys and whose rules list is not a
single empty line, the renderer returns non-empty text and never raises;
absence of a topic's top-level data still degrades to the placeholder
(covered since the empty dataset is well-formed). -/
theorem C3_render_total_nonempty (cmd : String) (f : Dataset → Option String)
    (d : Dataset) (hf : command_functions cmd = some f) (hd : d.WF = true) :
    ∃ t, f d = some t ∧ t ≠ "" :=
  render_wf cmd f d hf hd

/-- Witness for C3 at the rules topic over the empty dataset. -/
theorem C3_render_total_nonempty_witness :
    command_functions "rules" = some get_rules_text
    ∧ Dataset.WF emptyDataset = true
    ∧ ∃ t, get_rules_text emptyDataset = some t ∧ t ≠ "" :=
  ⟨rfl, by decide, C3_render_total_nonempty "rules" get_rules_text emptyDataset rfl (by decide)⟩

/-- C5 counterexample: with the empty dataset obtained from a missing data
file, the administration topic renders its fixed contact text, not the
"temporarily unavailable" placeholder, so "every topic renders the
placeholder" is false. -/
theorem C5_counterexample :
    load_data DataFile.missing = emptyDataset
    ∧ get_admin_text (load_data DataFile.missing) = some adminText
    ∧ adminText ≠ unavailableText :=
  ⟨rfl, rfl, by decide⟩

/-- C5 amended: a missing or unparseable data file non-fatally yields the
empty dataset; the data-driven topics (emergency, electricity, utilities,
rules) then render the fixed "temporarily unavailable" placeholder — in
particular rules returns that placeholder, not an empty string and not a
raised error — while the constant topics (admin, bus, clinic, help) render
their fixed texts and the all-contacts digest renders its aggregate text. -/
theorem C5_missing_data_placeholder (f : DataFile)
    (h : f = DataFile.missing ∨ f = DataFile.malformed) :
    load_data f = emptyDataset
    ∧ get_emergency_text (load_data f) = some unavailableText
    ∧ get_electricity_text (load_data f) = some unavailableText
    ∧ get_utilities_text (load_data f) = some unavailableText
    ∧ get_rules_text (load_data f) = some unavailableText
    ∧ unavailableText ≠ ""
    ∧ get_admin_text (load_data f) = some adminText
    ∧ get_bus_schedule_text (load_data f) = some busText
    ∧ get_clinic_text (load_data f) = some clinicText
    ∧ get_help_text (load_data f) = some helpText
    ∧ (∃ t, get_all_contacts_text (load_data f) = some t ∧ t ≠ unavailableText) := by
  rcases h with h | h <;> subst h <;>
    exact ⟨rfl, rfl, rfl, rfl, rfl, by decide, rfl, rfl, rfl, rfl, _, rfl, by decide⟩

/-- Witness for C5 at the missing data file. -/
theorem C5_missing_data_placeholder_witness :
    (DataFile.missing = DataFile.missing ∨ DataFile.missing = DataFile.malformed)
    ∧ (load_data DataFile.missing = emptyDataset
      ∧ get_emergency_text (load_data DataFile.missing) = some unavailableText
      ∧ get_electricity_text (load_data DataFile.missing) = some unavailableText
      ∧ get_utilities_text (load_data DataFile.missing) = some unavailableText
      ∧ get_rules_text (load_data DataFile.missing) = some unavailableText
      ∧ unavailableText ≠ ""
      ∧ get_admin_text (load_data DataFile.missing) = some adminText
      ∧ get_bus_schedule_text (load_data DataFile.missing) = some busText
      ∧ get_clinic_text (load_data DataFile.missing) = some clinicText
      ∧ get_help_text (load_data DataFile.missing) = some helpText
      ∧ (∃ t, get_all_contacts_text (load_data DataFile.missing) = some t
          ∧ t ≠ unavailableText)) :=
  ⟨Or.inl rfl, C5_missing_data_placeholder DataFile.missing (Or.inl rfl)⟩

/-- C10: the administration, bus-schedule, clinic and help renderers are
constant functions of the dataset: each returns its fixed text on every
dataset, hence byte-identical output on any two datasets. -/
theorem C10_constant_renderers :
    (∀ d, get_admin_text d = some adminText)
    ∧ (∀ d, get_bus_schedule_text d = some busText)
    ∧ (∀ d, get_clinic_text d = some clinicText)
    ∧ (∀ d, get_help_text d = some helpText)
    ∧ (∀ d1 d2 : Dataset,
        get_admin_text d1 = get_admin_text d2
        ∧ get_bus_schedule_text d1 = get_bus_schedule_text d2
        ∧ get_clinic_text d1 = get_clinic_text d2
        ∧ get_help_text d1 = get_help_text d2) :=
  ⟨fun _ => rfl, fun _ => rfl, fun _ => rfl, fun _ => rfl,
    fun _ _ => ⟨rfl, rfl, rfl, rfl⟩⟩

/-- C4: for a shared-context (group) button tap requesting a known topic on
a well-formed dataset: when the private channel accepts delivery, the
handler performs exactly one message delivery — to the tapping user's
private chat — and exactly one callback acknowledgement (the confirmation
toast, visible only to the requester); when the private channel refuses
delivery, it performs zero deliveries to any channel and exactly one
instructional acknowledgement. -/
theorem C4_shared_context_delivery (d : Dataset) (cmd : String)
    (f : Dataset → Option String) (hf : command_functions cmd = some f)
    (hd : d.WF = true) :
    (∃ txt, f d = some txt
      ∧ handle_menu_buttons d cmd ChatType.groupChat true
          = some [Effect.sendMessage Target.userPrivate txt,
                  Effect.answerCallback (some sentAck) false]
      ∧ privateDeliveryCount [Effect.sendMessage Target.userPrivate txt,
          Effect.answerCallback (some sentAck) false] = 1
      ∧ deliveryCount [Effect.sendMessage Target.userPrivate txt,
          Effect.answerCallback (some sentAck) false] = 1
      ∧ ackCount [Effect.sendMessage Target.userPrivate txt,
          Effect.answerCallback (some sentAck) false] = 1)
    ∧ (handle_menu_buttons d cmd ChatType.groupChat false
        = some [Effect.answerCallback (some instructionalAck) true]
      ∧ deliveryCount [Effect.answerCallback (some instructionalAck) true] = 0
      ∧ ackCount [Effect.answerCallback (some instructionalAck) true] = 1) := by
  obtain ⟨txt, htxt, -⟩ := render_wf cmd f d hf hd
  refine ⟨⟨txt, htxt, ?_, rfl, rfl, rfl⟩, ?_, rfl, rfl⟩
  · simp [handle_menu_buttons, hf, htxt]
  · simp [handle_menu_buttons, hf, htxt]

/-- Witness for C4 at the help topic over the empty dataset. -/
theorem C4_shared_context_delivery_witness :
    command_functions "help" = some get_help_text
    ∧ Dataset.WF emptyDataset = true
    ∧ ((∃ txt, get_help_text emptyDataset = some txt
        ∧ handle_menu_buttons emptyDataset "help" ChatType.groupChat true
            = some [Effect.sendMessage Target.userPrivate txt,
                    Effect.answerCallback (some sentAck) false]
        ∧ privateDeliveryCount [Effect.sendMessage Target.userPrivate txt,
            Effect.answerCallback (some sentAck) false] = 1
        ∧ deliveryCount [Effect.sendMessage Target.userPrivate txt,
            Effect.answerCallback (some sentAck) false] = 1
        ∧ ackCount [Effect.sendMessage Target.userPrivate txt,
            Effect.answerCallback (some sentAck) false] = 1)
      ∧ (handle_menu_buttons emptyDataset "help" ChatType.groupChat false
          = some [Effect.answerCallback (some instructionalAck) true]
        ∧ deliveryCount [Effect.answerCallback (some instructionalAck) true] = 0
        ∧ ackCount [Effect.answerCallback (some instructionalAck) true] = 1)) :=
  ⟨rfl, by decide,
    C4_shared_context_delivery emptyDataset "help" get_help_text rfl (by decide)⟩

/-- C6 counterexample: in a direct chat, the text "/abc" — an inbound
request that is no recognized command — reaches the catch-all handler,
whose `if not message.text.startswith("/")` guard filters it out: the
dispatch produces zero effects, so the requester gets no textual
acknowledgement, contradicting "no request is silently dropped". -/
theorem C6_counterexample :
    routeMessage emptyDataset ChatType.directChat (some "/abc") = some [] :=
  rfl

/-- C6 amended: in a direct context, free text that does not start with "/"
yields the prompt to use the menu; free text starting with "/" that names
no recognized command is dropped without any acknowledgement. -/
theorem C6_direct_prompt (d : Dataset) (t u : String)
    (h1 : pyStartsWith t "/" = false)
    (h2 : pyStartsWith u "/" = true)
    (h3 : commandOf u ≠ some "start")
    (h4 : commandOf u ≠ some "menu")
    (h5 : commandOf u ≠ some "help") :
    routeMessage d ChatType.directChat (some t)
      = some [Effect.sendMessage Target.sameChat menuPrompt]
    ∧ routeMessage d ChatType.directChat (some u) = some [] := by
  constructor
  · have hc : commandOf t = none := by
      unfold commandOf
      rw [h1]
      rfl
    simp [routeMessage, hc, unknown_message, h1]
  · simp [routeMessage, h3, h4, h5, unknown_message, h2]

/-- Witness for C6: plain text prompts the menu, "/abc" is dropped. -/
theorem C6_direct_prompt_witness :
    pyStartsWith "привет" "/" = false
    ∧ pyStartsWith "/abc" "/" = true
    ∧ commandOf "/abc" ≠ some "start"
    ∧ commandOf "/abc" ≠ some "menu"
    ∧ commandOf "/abc" ≠ some "help"
    ∧ (routeMessage emptyDataset ChatType.directChat (some "привет")
        = some [Effect.sendMessage Target.sameChat menuPrompt]
      ∧ routeMessage emptyDataset ChatType.directChat (some "/abc") = some []) :=
  ⟨by decide, by decide, by decide, by decide, by decide,
    C6_direct_prompt emptyDataset "привет" "/abc" (by decide) (by decide)
      (by decide) (by decide) (by decide)⟩

/-- C7: a button tap whose callback data requests a topic (it carries the
`menu_` prefix and is not the `menu_show`/`menu_close` navigation taps)
that is not in the known topic set gets exactly the "not found"
acknowledgement — visible only to the requester — and zero delivery calls:
no message is sent or edited in any channel. -/
theorem C7_unknown_topic_not_found (d : Dataset) (chat : ChatType) (acc : Bool)
    (cb : String) (h1 : pyStartsWith cb "menu_" = true)
    (h2 : cb ≠ "menu_show") (h3 : cb ≠ "menu_close")
    (h4 : command_functions (pyReplace cb "menu_" "") = none) :
    routeCallback d cb chat acc
      = some [Effect.answerCallback (some notFoundAck) false]
    ∧ deliveryCount [Effect.answerCallback (some notFoundAck) false] = 0
    ∧ ackCount [Effect.answerCallback (some notFoundAck) false] = 1 := by
  refine ⟨?_, rfl, rfl⟩
  unfold routeCallback
  rw [if_neg h2, if_neg h3, if_pos h1]
  unfold handle_menu_buttons
  rw [h4]

/-- Witness for C7 at the unknown topic "xyz". -/
theorem C7_unknown_topic_not_found_witness :
    pyStartsWith "menu_xyz" "menu_" = true
    ∧ "menu_xyz" ≠ "menu_show"
    ∧ "menu_xyz" ≠ "menu_close"
    ∧ command_functions (pyReplace "menu_xyz" "menu_" "") = none
    ∧ (routeCallback emptyDataset "menu_xyz" ChatType.directChat true
        = some [Effect.answerCallback (some notFoundAck) false]
      ∧ deliveryCount [Effect.answerCallback (some notFoundAck) false] = 0
      ∧ ackCount [Effect.answerCallback (some notFoundAck) false] = 1) :=
  ⟨by decide, by decide, by decide, rfl,
    C7_unknown_topic_not_found emptyDataset ChatType.directChat true "menu_xyz"
      (by decide) (by decide) (by decide) rfl⟩

end Vech
